import Mathlib

/-!
Verification of the wabbit AMQP reconnecting-connection core: the close
notification bridge (`NotifyClose`), the automatic redial retry loop
(`AutoRedial`), and the `Delivery` data holder of the test server.

The Go source is shallowly embedded:

* `AmqpError` embeds the broker-native `*amqp.Error` value with its four
  fields `Code int`, `Reason string`, `Server bool`, `Recover bool`.
* `WabbitError` embeds the translated `wabbit.Error` produced by
  `utils.NewError`; a Go `nil` of either error type is `Option.none`.
* The body of `NotifyClose`'s bridging goroutine is the pure per-event
  translation `translateClose` plus the stream function `bridgeEvents`.
* `AutoRedial`'s goroutine is embedded as a trace function: the goroutine's
  observable actions (sends on `outChan`, the `time.Sleep` durations, calls
  to `conn.dialFn`, the recursive re-arm, the send on `done`) are recorded
  as a list of `RedialEv` events, and the mutation of `conn.attempts`
  (a `uint8`, hence arithmetic modulo 256) is threaded explicitly.  The
  outcomes of the successive `conn.dialFn()` calls are an input list:
  `some d` is a failed dial returning error `d`, `none` a successful one.
-/

/-- Embeds the broker-native close error `amqp.Error` (fields `Code int`,
`Reason string`, `Server bool`, `Recover bool`). -/
structure AmqpError where
  code : Int
  reason : String
  server : Bool
  recover : Bool
deriving DecidableEq

/-- Embeds the translated error value placed on the caller's channel
(`wabbit.Error` as built by `utils.NewError`): numeric code, reason string,
server-originator flag, recoverable flag. -/
structure WabbitError where
  code : Int
  reason : String
  server : Bool
  recover : Bool
deriving DecidableEq

/-- Modelled from the spec: the body of `utils.NewError` is not under `src/`
(only its call site in `NotifyClose` is).  Per the spec's ErrorTranslator
contract it "must preserve all four broker-supplied fields verbatim". -/
def NewError (code : Int) (reason : String) (server : Bool) (recover : Bool) :
    WabbitError :=
  { code := code, reason := reason, server := server, recover := recover }

/-- The per-event body of the goroutine in `Conn.NotifyClose`: for each
native error read from the bridge channel, `if err != nil` translate it with
`utils.NewError(err.Code, err.Reason, err.Server, err.Recover)`, else pass
the `nil` sentinel through. -/
def translateClose (err : Option AmqpError) : Option WabbitError :=
  match err with
  | some e => some (NewError e.code e.reason e.server e.recover)
  | none => none

/-- A Go channel, abstracted to its identity and its buffer capacity; the
values it carries are modelled separately as event streams. -/
structure GoChan where
  id : Nat
  capacity : Nat
deriving DecidableEq

/-- The synchronous result of `Conn.NotifyClose(c)`: the channel it returns
and the buffer capacity of the internal bridge channel it creates with
`make(chan *amqp.Error, cap(c))`. -/
structure NotifyCloseResult where
  returned : GoChan
  bridgeCap : Nat
deriving DecidableEq

/-- The synchronous part of `Conn.NotifyClose`: it makes the bridge channel
with capacity `cap(c)`, starts the goroutine (embedded separately as
`bridgeEvents`), and immediately returns the very channel `c` it was given.
-/
def NotifyClose (c : GoChan) : NotifyCloseResult :=
  { returned := c, bridgeCap := c.capacity }

/-- An observable action on the output channel of `NotifyClose`. -/
inductive ChanEv where
  | send (v : Option WabbitError)
  | close
deriving DecidableEq

/-- The actions of `NotifyClose`'s goroutine on the output channel `c`, for
a native close-event stream that ends (the `range amqpErr` loop): each
native value is translated and sent, and after the stream is exhausted the
goroutine executes `close(c)`. -/
def bridgeEvents (native : List (Option AmqpError)) : List ChanEv :=
  native.map (fun e => ChanEv.send (translateClose e)) ++ [ChanEv.close]

/-- Number of `close` actions in a channel-event stream. -/
def closeCount : List ChanEv → Nat
  | [] => 0
  | ChanEv.close :: rest => closeCount rest + 1
  | _ :: rest => closeCount rest

/-- An observable event of the `AutoRedial` goroutine: a send of the
captured error on `outChan`, a `time.Sleep` of `n` seconds, an invocation of
the stored `conn.dialFn`, the recursive `conn.AutoRedial(outChan, done)`
re-arm, and the send of `true` on `done`. -/
inductive RedialEv where
  | emit (e : WabbitError)
  | wait (n : Nat)
  | dial
  | rearm
  | signalDone
deriving DecidableEq

/-- The `attempts:` retry loop of `Conn.AutoRedial`, entered with the
translated error `err` captured from the close notification and the current
`conn.attempts` value.  Each iteration sends `err` on `outChan`, resets
`conn.attempts` to 0 if it exceeds 60, sleeps `conn.attempts` seconds, and
calls `conn.dialFn()`; on failure (`some _`) it increments `conn.attempts`
(a `uint8`, so modulo 256) and jumps back, on success (`none`) it re-arms
`AutoRedial` on the reconnected connection, sends `true` on `done`, and
returns, ignoring any further outcomes.  The result is the event trace
paired with the final `conn.attempts` value; `δ` is the type of the `error`
values returned by failed `conn.dialFn()` calls (only their presence is
inspected by the code). -/
def redialLoop {δ : Type} (err : WabbitError) :
    Nat → List (Option δ) → List RedialEv × Nat
  | attempts, [] => ([], attempts)
  | attempts, none :: _ =>
    let a := if 60 < attempts then 0 else attempts
    ([RedialEv.emit err, RedialEv.wait a, RedialEv.dial,
      RedialEv.rearm, RedialEv.signalDone], a)
  | attempts, some _ :: rest =>
    let a := if 60 < attempts then 0 else attempts
    let next := redialLoop err ((a + 1) % 256) rest
    (RedialEv.emit err :: RedialEv.wait a :: RedialEv.dial :: next.1, next.2)

/-- The goroutine of `Conn.AutoRedial` after the first value arrives from
the close-notification channel: a `nil` (graceful close) returns at once
with no action; a real error enters the retry loop. -/
def autoRedial {δ : Type} (firstErr : Option WabbitError) (attempts : Nat)
    (outcomes : List (Option δ)) : List RedialEv × Nat :=
  match firstErr with
  | none => ([], attempts)
  | some e => redialLoop e attempts outcomes

/-- The values sent on `outChan` in a redial trace, in order. -/
def emits : List RedialEv → List WabbitError
  | [] => []
  | RedialEv.emit e :: rest => e :: emits rest
  | _ :: rest => emits rest

/-- The `time.Sleep` durations of a redial trace, in seconds, in order. -/
def waits : List RedialEv → List Nat
  | [] => []
  | RedialEv.wait n :: rest => n :: waits rest
  | _ :: rest => waits rest

/-- Number of sends of `true` on `done` in a redial trace. -/
def doneCount : List RedialEv → Nat
  | [] => 0
  | RedialEv.signalDone :: rest => doneCount rest + 1
  | _ :: rest => doneCount rest

/-- Number of recursive `AutoRedial` re-arms in a redial trace. -/
def rearmCount : List RedialEv → Nat
  | [] => 0
  | RedialEv.rearm :: rest => rearmCount rest + 1
  | _ :: rest => rearmCount rest

/-- Number of `conn.dialFn()` invocations in a redial trace. -/
def dialCount : List RedialEv → Nat
  | [] => 0
  | RedialEv.dial :: rest => dialCount rest + 1
  | _ :: rest => dialCount rest

/-- The `conn.attempts` evolution of a streak of `k` consecutive failed
dials starting from value `a`, with the error payloads abstracted away:
each failed iteration applies the reset-then-increment of the loop. -/
def failStreakAttempts : Nat → Nat → Nat
  | a, 0 => a
  | a, k + 1 => failStreakAttempts (((if 60 < a then 0 else a) + 1) % 256) k

/-- The sleep durations of a streak of `k` consecutive failed dials starting
from `conn.attempts = a`. -/
def failStreakWaits : Nat → Nat → List Nat
  | _, 0 => []
  | a, k + 1 =>
    (if 60 < a then 0 else a) ::
      failStreakWaits (((if 60 < a then 0 else a) + 1) % 256) k

/-- A sample translated error (the spec's code-320 scenario). -/
def sampleErr : WabbitError :=
  { code := 320, reason := "CONNECTION_FORCED", server := true, recover := false }

/-- The bytes of a message body (Go `[]byte`). -/
abbrev Bytes := List Nat

/-- Embeds `wabbit.Option` (`map[string]interface` values); the `Delivery`
code only stores and returns it, so an association-list stand-in is
faithful for every claim about it. -/
abbrev WabbitOption := List (String × String)

/-- The originating channel a `Delivery` keeps a back-reference to,
abstracted to an identity; it is only stored, and used to route
acknowledgement calls not considered here. -/
structure Channel where
  id : Nat
deriving DecidableEq

/-- Embeds the `Delivery` struct of the test server: payload bytes, headers,
delivery tag (`uint64`), consumer tag, original route, message id,
originating channel, content type. -/
structure Delivery where
  data : Bytes
  headers : WabbitOption
  tag : Nat
  consumerTag : String
  originalRoute : String
  messageId : String
  channel : Channel
  contentType : String
deriving DecidableEq

/-- Embeds `NewDelivery`: it sets `data`, `headers`, `channel`, `tag`,
`messageId` and `contentType`, and leaves `consumerTag` and `originalRoute`
at their Go zero value, the empty string. -/
def NewDelivery (ch : Channel) (data : Bytes) (tag : Nat) (messageId : String)
    (hdrs : WabbitOption) (contentType : String) : Delivery :=
  { data := data
    headers := hdrs
    tag := tag
    consumerTag := ""
    originalRoute := ""
    messageId := messageId
    channel := ch
    contentType := contentType }

/-- Embeds `Delivery.Body`. -/
def Delivery.Body (d : Delivery) : Bytes := d.data

/-- Embeds `Delivery.Headers`. -/
def Delivery.Headers (d : Delivery) : WabbitOption := d.headers

/-- Embeds `Delivery.DeliveryTag`. -/
def Delivery.DeliveryTag (d : Delivery) : Nat := d.tag

/-- Embeds `Delivery.ConsumerTag`. -/
def Delivery.ConsumerTag (d : Delivery) : String := d.consumerTag

/-- Embeds `Delivery.MessageId`. -/
def Delivery.MessageId (d : Delivery) : String := d.messageId

/-- Embeds `Delivery.ContentType`. -/
def Delivery.ContentType (d : Delivery) : String := d.contentType

/-- C3: if the first value from the close-event stream is the graceful-close
sentinel `nil`, the `AutoRedial` goroutine returns at once: the trace is
empty — nothing is sent on `outChan`, nothing on `done`, the reconnect
closure is never invoked — and `conn.attempts` is untouched. -/
theorem autoRedial_graceful_close_silent {δ : Type} (a : Nat)
    (outcomes : List (Option δ)) :
    autoRedial none a outcomes = ([], a)
    ∧ emits (autoRedial none a outcomes).1 = []
    ∧ doneCount (autoRedial none a outcomes).1 = 0
    ∧ dialCount (autoRedial none a outcomes).1 = 0 :=
  ⟨rfl, rfl, rfl, rfl⟩

/-- C6: `NotifyClose`'s translation sends, for a present native error, a
non-sentinel translated error whose four fields equal the native ones
exactly, and for an absent native error the sentinel `nil`. -/
theorem notifyClose_translates_exactly (e : AmqpError) :
    (∃ w : WabbitError, translateClose (some e) = some w
        ∧ w.code = e.code ∧ w.reason = e.reason
        ∧ w.server = e.server ∧ w.recover = e.recover)
    ∧ translateClose none = none :=
  ⟨⟨NewError e.code e.reason e.server e.recover, rfl, rfl, rfl, rfl, rfl⟩, rfl⟩

/-- C10: a `Delivery` built by `NewDelivery` returns from its accessors
exactly the constructor arguments, and its `ConsumerTag` is the empty
string because the constructor never sets that field. -/
theorem newDelivery_accessors (ch : Channel) (data : Bytes) (tag : Nat)
    (messageId : String) (hdrs : WabbitOption) (contentType : String) :
    (NewDelivery ch data tag messageId hdrs contentType).Body = data
    ∧ (NewDelivery ch data tag messageId hdrs contentType).Headers = hdrs
    ∧ (NewDelivery ch data tag messageId hdrs contentType).DeliveryTag = tag
    ∧ (NewDelivery ch data tag messageId hdrs contentType).MessageId = messageId
    ∧ (NewDelivery ch data tag messageId hdrs contentType).ContentType = contentType
    ∧ (NewDelivery ch data tag messageId hdrs contentType).ConsumerTag = "" :=
  ⟨rfl, rfl, rfl, rfl, rfl, rfl⟩

lemma redialLoop_replicate_snd {δ : Type} (err : WabbitError) (d : δ) :
    ∀ (k a : Nat),
      (redialLoop err a (List.replicate k (some d))).2 = failStreakAttempts a k := by
  intro k
  induction k with
  | zero => intro a; simp [redialLoop, failStreakAttempts]
  | succ k ih =>
    intro a
    simp [List.replicate_succ, redialLoop, failStreakAttempts, ih]

lemma redialLoop_replicate_waits {δ : Type} (err : WabbitError) (d : δ) :
    ∀ (k a : Nat),
      waits (redialLoop err a (List.replicate k (some d))).1 = failStreakWaits a k := by
  intro k
  induction k with
  | zero => intro a; simp [redialLoop, failStreakWaits, waits]
  | succ k ih =>
    intro a
    simp [List.replicate_succ, redialLoop, failStreakWaits, waits, ih]

lemma failStreakAttempts_linear :
    ∀ (k a : Nat), a + k ≤ 61 → failStreakAttempts a k = a + k := by
  intro k
  induction k with
  | zero => intro a h; simp [failStreakAttempts]
  | succ k ih =>
    intro a h
    rw [failStreakAttempts, if_neg (by omega : ¬ 60 < a),
      Nat.mod_eq_of_lt (by omega : a + 1 < 256), ih (a + 1) (by omega)]
    omega

lemma redialLoop_success_after_fails_snd {δ : Type} (err : WabbitError) (d : δ) :
    ∀ (k a : Nat), a + k ≤ 60 →
      (redialLoop err a (List.replicate k (some d) ++ [none])).2 = a + k := by
  intro k
  induction k with
  | zero =>
    intro a h
    simp only [List.replicate, List.nil_append, redialLoop]
    rw [if_neg (by omega : ¬ 60 < a)]
    omega
  | succ k ih =>
    intro a h
    simp only [List.replicate_succ, List.cons_append, redialLoop, List.append_eq]
    rw [if_neg (by omega : ¬ 60 < a),
      Nat.mod_eq_of_lt (by omega : a + 1 < 256), ih (a + 1) (by omega)]
    omega

lemma redialLoop_waits_head {δ : Type} (err : WabbitError) (a : Nat)
    (o : Option δ) (rest : List (Option δ)) :
    (waits (redialLoop err a (o :: rest)).1).head?
      = some (if 60 < a then 0 else a) := by
  cases o <;> simp [redialLoop, waits]

lemma waits_mem_le {δ : Type} (err : WabbitError) :
    ∀ (outs : List (Option δ)) (a n : Nat),
      n ∈ waits (redialLoop err a outs).1 → n ≤ 60 := by
  intro outs
  induction outs with
  | nil => intro a n h; simp [redialLoop, waits] at h
  | cons o rest ih =>
    intro a n h
    cases o with
    | none =>
      simp [redialLoop, waits] at h
      subst h
      split <;> omega
    | some d =>
      simp [redialLoop, waits] at h
      rcases h with h | h
      · subst h; split <;> omega
      · exact ih _ n h

lemma emits_mem_eq {δ : Type} (err : WabbitError) :
    ∀ (outs : List (Option δ)) (a : Nat) (e : WabbitError),
      e ∈ emits (redialLoop err a outs).1 → e = err := by
  intro outs
  induction outs with
  | nil => intro a e h; simp [redialLoop, emits] at h
  | cons o rest ih =>
    intro a e h
    cases o with
    | none =>
      simp [redialLoop, emits] at h
      exact h
    | some d =>
      simp [redialLoop, emits] at h
      rcases h with h | h
      · exact h
      · exact ih _ e h

lemma redialLoop_success_trace {δ : Type} (err : WabbitError) :
    ∀ (fails : List δ) (a : Nat),
      doneCount (redialLoop err a (fails.map some ++ [none])).1 = 1
      ∧ rearmCount (redialLoop err a (fails.map some ++ [none])).1 = 1
      ∧ ∃ pre, (redialLoop err a (fails.map some ++ [none])).1
          = pre ++ [RedialEv.rearm, RedialEv.signalDone] := by
  intro fails
  induction fails with
  | nil =>
    intro a
    exact ⟨rfl, rfl,
      [RedialEv.emit err, RedialEv.wait (if 60 < a then 0 else a), RedialEv.dial],
      rfl⟩
  | cons f fs ih =>
    intro a
    obtain ⟨h1, h2, pre, hpre⟩ := ih (((if 60 < a then 0 else a) + 1) % 256)
    refine ⟨?_, ?_,
      RedialEv.emit err :: RedialEv.wait (if 60 < a then 0 else a) ::
        RedialEv.dial :: pre, ?_⟩
    · simpa [redialLoop, doneCount] using h1
    · simpa [redialLoop, rearmCount] using h2
    · simp [redialLoop, hpre]

lemma closeCount_bridge (native : List (Option AmqpError)) :
    closeCount (bridgeEvents native) = 1 := by
  induction native with
  | nil => rfl
  | cons e rest ih => simpa [bridgeEvents, closeCount] using ih

lemma bridgeEvents_getLast (native : List (Option AmqpError)) :
    (bridgeEvents native).getLast? = some ChanEv.close := by
  rw [bridgeEvents, List.getLast?_append_cons]
  rfl

set_option maxRecDepth 4000 in
/-- C1: starting from a fresh connection (`conn.attempts = 0`), after `k`
consecutive reconnect failures with `k ≤ 60` the counter equals `k`; the
first attempt's wait is 0 seconds; after the 62nd consecutive failure the
counter equals 1 — the reset to 0 fires at the iteration that starts with
the counter at 61, so the 62nd attempt itself sleeps 0 seconds and the wait
it produces for the 63rd attempt is computed from counter 1. -/
theorem autoRedial_attempt_counter (err : WabbitError) (d : String) (k : Nat)
    (hk : k ≤ 60) :
    (redialLoop err 0 (List.replicate k (some d))).2 = k
    ∧ (waits (redialLoop err 0 (List.replicate (k + 1) (some d))).1).head? = some 0
    ∧ (redialLoop err 0 (List.replicate 62 (some d))).2 = 1
    ∧ (waits (redialLoop err 0 (List.replicate 62 (some d))).1).getLast? = some 0
    ∧ (waits (redialLoop err 0 (List.replicate 63 (some d))).1).getLast? = some 1 := by
  refine ⟨?_, ?_, ?_, ?_, ?_⟩
  · rw [redialLoop_replicate_snd err d k 0,
      failStreakAttempts_linear k 0 (by omega)]
    omega
  · rw [redialLoop_replicate_waits err d (k + 1) 0]
    simp [failStreakWaits]
  · rw [redialLoop_replicate_snd err d 62 0]
    decide
  · rw [redialLoop_replicate_waits err d 62 0]
    decide
  · rw [redialLoop_replicate_waits err d 63 0]
    decide

set_option maxRecDepth 4000 in
/-- Witness for C1 at `k = 3`. -/
theorem autoRedial_attempt_counter_witness :
    3 ≤ 60
    ∧ ((redialLoop sampleErr 0 (List.replicate 3 (some "x"))).2 = 3
      ∧ (waits (redialLoop sampleErr 0 (List.replicate (3 + 1) (some "x"))).1).head?
          = some 0
      ∧ (redialLoop sampleErr 0 (List.replicate 62 (some "x"))).2 = 1
      ∧ (waits (redialLoop sampleErr 0 (List.replicate 62 (some "x"))).1).getLast?
          = some 0
      ∧ (waits (redialLoop sampleErr 0 (List.replicate 63 (some "x"))).1).getLast?
          = some 1) :=
  ⟨by decide, autoRedial_attempt_counter sampleErr "x" 3 (by decide)⟩

/-- C2 counterexample: with the reconnect closure failing exactly 3 times
and then succeeding, the retry loop does not send the error exactly 3 times
on `outChan` — the emission at the top of every iteration, including the one
whose dial succeeds, makes it 4. -/
theorem redial_three_failures_emit_count_counterexample :
    (emits (redialLoop sampleErr 0 [some "x", some "x", some "x", none]).1).length
      ≠ 3 := by
  decide

/-- C2 (amended): if the reconnect closure fails exactly 3 times and then
succeeds, the loop sends the same original error on `outChan` exactly 4
times (once per dial attempt, including the iteration whose dial succeeds),
sleeps 0, 1, 2 and 3 seconds before the four attempts, and sends `true` on
`done` exactly once, as the last action after the success. -/
theorem redial_three_failures_then_success (err : WabbitError) (d : String) :
    emits (redialLoop err 0 [some d, some d, some d, none]).1 = [err, err, err, err]
    ∧ waits (redialLoop err 0 [some d, some d, some d, none]).1 = [0, 1, 2, 3]
    ∧ doneCount (redialLoop err 0 [some d, some d, some d, none]).1 = 1
    ∧ (redialLoop err 0 [some d, some d, some d, none]).1.getLast?
        = some RedialEv.signalDone :=
  ⟨rfl, rfl, rfl, rfl⟩

/-- C4: every value sent on `outChan` by the retry loop equals the
translated error captured when the close event arrived, whatever the
errors returned by the failed reconnect attempts are — the loop never
replaces the emitted value with a dial failure's error. -/
theorem autoRedial_emits_original_error {δ : Type} (err : WabbitError) (a : Nat)
    (outs : List (Option δ)) (e : WabbitError)
    (he : e ∈ emits (redialLoop err a outs).1) : e = err :=
  emits_mem_eq err outs a e he

/-- Witness for C4: the single emission of a one-failure trace is the
captured error. -/
theorem autoRedial_emits_original_error_witness :
    sampleErr ∈ emits (redialLoop sampleErr 7 [some "boom"]).1
    ∧ sampleErr = sampleErr :=
  ⟨by decide, autoRedial_emits_original_error sampleErr 7 [some "boom"] sampleErr
    (by decide)⟩

/-- C5: when a reconnect attempt succeeds, the goroutine re-invokes
`AutoRedial` on the reconnected connection (re-arming the watch) and then
sends `true` on `done`, in that order, as its final two actions; the
successful cycle re-arms exactly once and signals `done` exactly once. -/
theorem autoRedial_success_rearm_then_done {δ : Type} (err : WabbitError)
    (a : Nat) (fails : List δ) :
    doneCount (redialLoop err a (fails.map some ++ [none])).1 = 1
    ∧ rearmCount (redialLoop err a (fails.map some ++ [none])).1 = 1
    ∧ ∃ pre, (redialLoop err a (fails.map some ++ [none])).1
        = pre ++ [RedialEv.rearm, RedialEv.signalDone] :=
  redialLoop_success_trace err fails a

/-- C7: every sleep duration of the retry loop is at most 60 seconds — the
counter is reset to 0 before the backoff is computed whenever it exceeds
60, so the slept duration never exceeds 60. -/
theorem autoRedial_wait_le_sixty {δ : Type} (err : WabbitError) (a : Nat)
    (outs : List (Option δ)) (n : Nat)
    (hn : n ∈ waits (redialLoop err a outs).1) : n ≤ 60 :=
  waits_mem_le err outs a n hn

/-- Witness for C7: a trace starting at counter 61 sleeps 0 seconds. -/
theorem autoRedial_wait_le_sixty_witness :
    0 ∈ waits (redialLoop sampleErr 61 [some "x"]).1 ∧ 0 ≤ 60 :=
  ⟨by decide, autoRedial_wait_le_sixty sampleErr 61 [some "x"] 0 (by decide)⟩

/-- C8: `NotifyClose(c)` returns the very channel `c` it was given, its
internal bridge channel has buffer capacity `cap(c)`, and once the native
close-event stream is exhausted its goroutine closes the output channel:
`close` is the last of its actions and happens exactly once. -/
theorem notifyClose_channel_contract (c : GoChan)
    (native : List (Option AmqpError)) :
    (NotifyClose c).returned = c
    ∧ (NotifyClose c).bridgeCap = c.capacity
    ∧ (bridgeEvents native).getLast? = some ChanEv.close
    ∧ closeCount (bridgeEvents native) = 1 :=
  ⟨rfl, rfl, bridgeEvents_getLast native, closeCount_bridge native⟩

set_option maxRecDepth 4000 in
/-- C9 counterexample: the success path is not exempt from the rollover
check — after exactly 61 consecutive failures the success iteration starts
with `conn.attempts = 61 > 60` and zeroes the counter before its successful
dial, so the counter ends at 0 and the first sleep of the next failure
streak is 0 seconds, not 61. -/
theorem autoRedial_counter_reset_at_61_counterexample :
    (redialLoop sampleErr 0 (List.replicate 61 (some "x") ++ [none])).2 = 0
    ∧ (waits (redialLoop sampleErr
        (redialLoop sampleErr 0 (List.replicate 61 (some "x") ++ [none])).2
        [some "y"]).1).head? ≠ some 61 := by
  decide

/-- C9 (amended): for a failure streak that never trips the rollover check,
a successful reconnect does not reset `conn.attempts`: after a streak of
`k ≤ 60` failures followed by a success, the counter stays at `k`, so the
first sleep of the next failure streak (under the re-armed watch) is `k`
seconds, not 0.  (After exactly 61 failures the rollover check in the
success iteration zeroes the counter first, so the next streak restarts at
wait 0.) -/
theorem autoRedial_counter_persists_after_success (err errNext : WabbitError)
    (d : String) (o : Option String) (rest : List (Option String)) (k : Nat)
    (hk : k ≤ 60) :
    (redialLoop err 0 (List.replicate k (some d) ++ [none])).2 = k
    ∧ (waits (redialLoop errNext k (o :: rest)).1).head? = some k := by
  constructor
  · have h := redialLoop_success_after_fails_snd err d k 0 (by omega)
    simpa using h
  · rw [redialLoop_waits_head errNext k o rest, if_neg (by omega : ¬ 60 < k)]

/-- Witness for C9 at `k = 3`. -/
theorem autoRedial_counter_persists_after_success_witness :
    3 ≤ 60
    ∧ ((redialLoop sampleErr 0 (List.replicate 3 (some "x") ++ [none])).2 = 3
      ∧ (waits (redialLoop sampleErr 3 [some "y"]).1).head? = some 3) :=
  ⟨by decide,
    autoRedial_counter_persists_after_success sampleErr sampleErr "x" (some "y")
      [] 3 (by decide)⟩
